import Mathlib

/-!
Verification of the product-service domain model and use-case layer.

The Go sources are embedded shallowly:

* `entities` mirrors `internal/domain/entities/product.go`: the `Product`
  struct, its validated factory `NewProduct`, and its mutating operations.
  Go strings become Lean `String`; Go `len` (UTF-8 byte length) becomes
  `goLen`; `strings.TrimSpace` becomes `trimSpace` (the Unicode
  White_Space set used by Go's `unicode.IsSpace`); `strings.ToUpper`
  becomes `toUpperGo` (the ASCII fragment of Go's mapping).  Go `float64`
  prices are modelled as `ℚ`: the code only stores and compares prices
  (never does arithmetic on them), and every literal involved is an exact
  decimal, so the ordering behaviour coincides.  Go `int` stock is
  modelled as `Int` (no operation verified here approaches the 64-bit
  range).  `time.Now()` becomes an explicit `now : Nat` argument; each
  mutating method returns the updated struct paired with the `error`
  result of the Go method (`none` = nil error), so a failed call returning
  the unchanged struct is visible in the model.
* `usecases` mirrors `internal/application/usecases/product.go` plus the
  DTO conversions: the persistence port is a record of response functions,
  and each use case additionally returns the list of port calls it issued,
  so that claims about which port methods are (never) invoked are
  expressible.
-/

namespace entities

/-- The set of code points Go's `unicode.IsSpace` accepts: the Latin-1
whitespace cases together with the Unicode White_Space property table. -/
def goIsSpace (c : Char) : Bool :=
  c.val == 0x09 || c.val == 0x0A || c.val == 0x0B || c.val == 0x0C ||
  c.val == 0x0D || c.val == 0x20 || c.val == 0x85 || c.val == 0xA0 ||
  c.val == 0x1680 || (0x2000 ≤ c.val && c.val ≤ 0x200A) ||
  c.val == 0x2028 || c.val == 0x2029 || c.val == 0x202F ||
  c.val == 0x205F || c.val == 0x3000

/-- Go `strings.TrimSpace`: drop leading and trailing `goIsSpace` runes. -/
def trimSpace (s : String) : String :=
  String.mk (((s.data.dropWhile goIsSpace).reverse.dropWhile goIsSpace).reverse)

/-- Go `strings.ToUpper`, restricted to the ASCII fragment of the Unicode
upper-case mapping (all SKUs considered here are ASCII). -/
def toUpperGo (s : String) : String :=
  String.mk (s.data.map Char.toUpper)

/-- Go `len` on a string: the UTF-8 byte length. -/
def goLen (s : String) : Nat :=
  s.utf8ByteSize

inductive ProductStatus
  | active
  | inactive
  | discontinued
deriving DecidableEq, Repr

/-- The `Product` entity struct. -/
structure Product where
  ID : Nat
  Name : String
  Description : String
  SKU : String
  Price : ℚ
  Category : String
  Brand : String
  Stock : Int
  Status : ProductStatus
  CreatedAt : Nat
  UpdatedAt : Nat
deriving DecidableEq, Repr

def Product.IsActive (p : Product) : Bool :=
  p.Status == .active

def Product.IsInStock (p : Product) : Bool :=
  p.Stock > 0

def Product.IsAvailable (p : Product) : Bool :=
  p.IsActive && p.IsInStock

def Product.Activate (p : Product) (now : Nat) : Product :=
  { p with Status := .active, UpdatedAt := now }

def Product.Deactivate (p : Product) (now : Nat) : Product :=
  { p with Status := .inactive, UpdatedAt := now }

def Product.Discontinue (p : Product) (now : Nat) : Product :=
  { p with Status := .discontinued, UpdatedAt := now }

/-- `(*Product).UpdateStock`: the pair is (receiver after the call, returned
error). -/
def Product.UpdateStock (p : Product) (quantity : Int) (now : Nat) :
    Product × Option String :=
  if quantity < 0 then (p, some "stock quantity cannot be negative")
  else ({ p with Stock := quantity, UpdatedAt := now }, none)

/-- `(*Product).ReduceStock`. -/
def Product.ReduceStock (p : Product) (quantity : Int) (now : Nat) :
    Product × Option String :=
  if quantity ≤ 0 then (p, some "reduction quantity must be positive")
  else if p.Stock < quantity then (p, some "insufficient stock")
  else ({ p with Stock := p.Stock - quantity, UpdatedAt := now }, none)

/-- `(*Product).AddStock`. -/
def Product.AddStock (p : Product) (quantity : Int) (now : Nat) :
    Product × Option String :=
  if quantity ≤ 0 then (p, some "addition quantity must be positive")
  else ({ p with Stock := p.Stock + quantity, UpdatedAt := now }, none)

/-- `(*Product).UpdatePrice`. -/
def Product.UpdatePrice (p : Product) (price : ℚ) (now : Nat) :
    Product × Option String :=
  if price < 0 then (p, some "price cannot be negative")
  else ({ p with Price := price, UpdatedAt := now }, none)

def validateProductName (name : String) : Option String :=
  let name := trimSpace name
  if name = "" then some "product name is required"
  else if goLen name < 2 then some "product name must be at least 2 characters long"
  else if goLen name > 255 then some "product name must be less than 255 characters"
  else none

def validateSKU (sku : String) : Option String :=
  let sku := trimSpace sku
  if sku = "" then some "SKU is required"
  else if goLen sku < 3 then some "SKU must be at least 3 characters long"
  else if goLen sku > 50 then some "SKU must be less than 50 characters"
  else none

def validatePrice (price : ℚ) : Option String :=
  if price < 0 then some "price cannot be negative"
  else if price > 999999.99 then some "price cannot exceed 999,999.99"
  else none

def validateStock (stock : Int) : Option String :=
  if stock < 0 then some "stock cannot be negative"
  else none

/-- The validated factory `NewProduct`. -/
def NewProduct (name description sku category brand : String) (price : ℚ)
    (stock : Int) (now : Nat) : Except String Product :=
  match validateProductName name with
  | some e => .error e
  | none =>
  match validateSKU sku with
  | some e => .error e
  | none =>
  match validatePrice price with
  | some e => .error e
  | none =>
  match validateStock stock with
  | some e => .error e
  | none =>
  if trimSpace category = "" then .error "category is required"
  else .ok
    { ID := 0
      Name := trimSpace name
      Description := trimSpace description
      SKU := toUpperGo (trimSpace sku)
      Price := price
      Category := trimSpace category
      Brand := trimSpace brand
      Stock := stock
      Status := .active
      CreatedAt := now
      UpdatedAt := now }

end entities

namespace usecases

open entities

/-- A `DomainError` from `internal/domain/errors`. -/
structure DomainError where
  Code : String
  Message : String
  Field : String := ""
deriving DecidableEq, Repr

def ErrProductNotFound : DomainError :=
  { Code := "PRODUCT_NOT_FOUND", Message := "Product not found" }

def ErrProductAlreadyExists : DomainError :=
  { Code := "PRODUCT_ALREADY_EXISTS"
    Message := "Product with this SKU already exists", Field := "sku" }

def ErrInvalidProductSKU : DomainError :=
  { Code := "INVALID_SKU", Message := "Invalid SKU format", Field := "sku" }

def ErrFailedToCheckProductExistance : DomainError :=
  { Code := "FAILED_TO_CHECK_PRODUCT_EXISTENCE"
    Message := "failed to check product existence" }

def ErrFailedToCreateProduct : DomainError :=
  { Code := "FAILED_TO_CREATE_PRODUCT", Message := "failed to create product" }

def NewProductValidationError (field message : String) : DomainError :=
  { Code := "VALIDATION_ERROR", Message := message, Field := field }

/-- An error escaping a use case is either a `DomainError` or an entity
validation error propagated unchanged (a plain Go error message). -/
inductive UCError
  | domain (e : DomainError)
  | entity (msg : String)
deriving DecidableEq, Repr

/-- `dto.CreateProductRequestDTO`. -/
structure CreateProductRequestDTO where
  Name : String
  Description : String
  SKU : String
  Price : ℚ
  Category : String
  Brand : String
  Stock : Int
deriving DecidableEq, Repr

/-- `dto.UpdateProductRequestDTO`: price and stock are optional pointers. -/
structure UpdateProductRequestDTO where
  Name : String := ""
  Description : String := ""
  Category : String := ""
  Brand : String := ""
  Price : Option ℚ := none
  Stock : Option Int := none
deriving DecidableEq, Repr

/-- `dto.ProductResponseDTO`. -/
structure ProductResponseDTO where
  ID : Nat
  Name : String
  Description : String
  SKU : String
  Price : ℚ
  Category : String
  Brand : String
  Stock : Int
  Status : ProductStatus
  IsActive : Bool
  IsInStock : Bool
  IsAvailable : Bool
  CreatedAt : Nat
  UpdatedAt : Nat
deriving DecidableEq, Repr

/-- `dto.ProductToResponseDTO`. -/
def ProductToResponseDTO (p : Product) : ProductResponseDTO :=
  { ID := p.ID
    Name := p.Name
    Description := p.Description
    SKU := p.SKU
    Price := p.Price
    Category := p.Category
    Brand := p.Brand
    Stock := p.Stock
    Status := p.Status
    IsActive := p.IsActive
    IsInStock := p.IsInStock
    IsAvailable := p.IsAvailable
    CreatedAt := p.CreatedAt
    UpdatedAt := p.UpdatedAt }

/-- `(*CreateProductRequestDTO).ToEntity`. -/
def ToEntity (req : CreateProductRequestDTO) (now : Nat) : Except String Product :=
  NewProduct req.Name req.Description req.SKU req.Category req.Brand
    req.Price req.Stock now

/-- `dto.ProductListResponseDTO`. -/
structure ProductListResponseDTO where
  Products : List ProductResponseDTO
  Total : Int
  Page : Int
  PageSize : Int
deriving DecidableEq, Repr

/-- One call issued to the persistence port (`ports.ProductRepository`). -/
inductive PortCall
  | existsBySKU (sku : String)
  | create (p : Product)
  | getByID (id : Nat)
deriving DecidableEq, Repr

/-- The persistence port, as the responses it would give to each call.
Port errors are modelled as `DomainError`s, which is what the use-case
layer compares them against. -/
structure Port where
  existsBySKU : String → Except DomainError Bool
  create : Product → Except DomainError Product
  getByID : Nat → Except DomainError Product

/-- The `validateSKU` helper private to the use-cases package (same body
as the entity-level one). -/
def validateSKU (sku : String) : Option String :=
  let sku := trimSpace sku
  if sku = "" then some "SKU is required"
  else if goLen sku < 3 then some "SKU must be at least 3 characters long"
  else if goLen sku > 50 then some "SKU must be less than 50 characters"
  else none

/-- `CreateProduct`: besides the Go result, the model returns the list of
port calls issued, in order. -/
def CreateProduct (port : Port) (request : CreateProductRequestDTO)
    (now : Nat) : Except UCError ProductResponseDTO × List PortCall :=
  match validateSKU request.SKU with
  | some _ => (.error (.domain ErrInvalidProductSKU), [])
  | none =>
  match port.existsBySKU request.SKU with
  | .error _ => (.error (.domain ErrFailedToCheckProductExistance),
      [.existsBySKU request.SKU])
  | .ok true => (.error (.domain ErrProductAlreadyExists),
      [.existsBySKU request.SKU])
  | .ok false =>
  match ToEntity request now with
  | .error msg => (.error (.entity msg), [.existsBySKU request.SKU])
  | .ok domainEntity =>
  match port.create domainEntity with
  | .error e =>
      if e = ErrFailedToCheckProductExistance then
        (.error (.domain ErrFailedToCheckProductExistance),
          [.existsBySKU request.SKU, .create domainEntity])
      else
        (.error (.domain ErrFailedToCreateProduct),
          [.existsBySKU request.SKU, .create domainEntity])
  | .ok createdProduct =>
      (.ok (ProductToResponseDTO createdProduct),
        [.existsBySKU request.SKU, .create domainEntity])

/-- `UpdateProduct`: loads the entity, applies the supplied fields, and —
exactly as the Go code does — returns the refreshed projection without
issuing any persisting port call. -/
def UpdateProduct (port : Port) (id : Nat)
    (request : UpdateProductRequestDTO) (now : Nat) :
    Except UCError ProductResponseDTO × List PortCall :=
  match port.getByID id with
  | .error e => (.error (.domain e), [.getByID id])
  | .ok existingProduct =>
  let p1 := if request.Name ≠ "" then
      { existingProduct with Name := request.Name } else existingProduct
  let p2 := if request.Description ≠ "" then
      { p1 with Description := request.Description } else p1
  let p3 := if request.Category ≠ "" then
      { p2 with Category := request.Category } else p2
  let p4 := if request.Brand ≠ "" then
      { p3 with Brand := request.Brand } else p3
  match request.Price with
  | some price =>
    match p4.UpdatePrice price now with
    | (_, some msg) =>
        (.error (.domain (NewProductValidationError "price" msg)), [.getByID id])
    | (p5, none) => updateProductRest p5 request now id
  | none => updateProductRest p4 request now id
where
  /-- The stock branch and the return of `UpdateProduct`, split out so the
  price branch above stays readable. -/
  updateProductRest (p : Product) (request : UpdateProductRequestDTO)
      (now : Nat) (id : Nat) :
      Except UCError ProductResponseDTO × List PortCall :=
    match request.Stock with
    | some stock =>
      match p.UpdateStock stock now with
      | (_, some msg) =>
          (.error (.domain (NewProductValidationError "stock" msg)), [.getByID id])
      | (p6, none) => (.ok (ProductToResponseDTO p6), [.getByID id])
    | none => (.ok (ProductToResponseDTO p), [.getByID id])

/-- `ListProducts`: normalizes the pagination arguments and — exactly as
the Go code does — returns an empty page without consulting the port. -/
def ListProducts (_port : Port) (page pageSize : Int) :
    ProductListResponseDTO × List PortCall :=
  let page := if page < 0 then 0 else page
  let pageSize := if pageSize < 1 || pageSize > 100 then 10 else pageSize
  let products : List ProductResponseDTO := []
  ({ Products := products, Page := page, PageSize := pageSize,
     Total := products.length }, [])

/-- An exact-match in-memory port over a list of stored products: the
canonical conforming implementation used for concrete scenarios. -/
def inMemoryPort (store : List Product) : Port :=
  { existsBySKU := fun sku => .ok (store.any (fun q => q.SKU == sku))
    create := fun p => .ok p
    getByID := fun id =>
      match store.find? (fun q => q.ID == id) with
      | some p => .ok p
      | none => .error ErrProductNotFound }

end usecases

open entities usecases

/-! Helper lemmas about the validators. -/

theorem validateProductName_eq_none (name : String)
    (h2 : 2 ≤ goLen (trimSpace name)) (h255 : goLen (trimSpace name) ≤ 255) :
    validateProductName name = none := by
  unfold validateProductName
  have hne : trimSpace name ≠ "" := by
    intro he
    rw [he] at h2
    exact absurd h2 (by decide)
  rw [if_neg hne, if_neg (by omega), if_neg (by omega)]

theorem validateSKU_eq_none (sku : String)
    (h3 : 3 ≤ goLen (trimSpace sku)) (h50 : goLen (trimSpace sku) ≤ 50) :
    entities.validateSKU sku = none := by
  unfold entities.validateSKU
  have hne : trimSpace sku ≠ "" := by
    intro he
    rw [he] at h3
    exact absurd h3 (by decide)
  rw [if_neg hne, if_neg (by omega), if_neg (by omega)]

theorem validatePrice_eq_none (price : ℚ)
    (h0 : 0 ≤ price) (hb : price ≤ 999999.99) :
    validatePrice price = none := by
  unfold validatePrice
  rw [if_neg (not_lt.mpr h0), if_neg (not_lt.mpr hb)]

theorem validateStock_eq_none (stock : Int) (h : 0 ≤ stock) :
    validateStock stock = none := by
  unfold validateStock
  rw [if_neg (not_lt.mpr h)]

/-- C1: for every tuple of construction inputs satisfying all field
constraints of the data model, `NewProduct` succeeds and returns a Product
with status Active, the name, description, SKU, category and brand trimmed
of surrounding whitespace, the SKU additionally upper-cased, and the
created-at timestamp equal to the updated-at timestamp. -/
theorem NewProduct_valid_inputs_ok
    (name description sku category brand : String) (price : ℚ) (stock : Int)
    (now : Nat)
    (hname : 2 ≤ goLen (trimSpace name) ∧ goLen (trimSpace name) ≤ 255)
    (_hdesc : goLen (trimSpace description) ≤ 1000)
    (hsku : 3 ≤ goLen (trimSpace sku) ∧ goLen (trimSpace sku) ≤ 50)
    (hprice : 0 ≤ price ∧ price ≤ 999999.99)
    (hstock : 0 ≤ stock)
    (hcat : trimSpace category ≠ "") :
    NewProduct name description sku category brand price stock now =
      .ok { ID := 0
            Name := trimSpace name
            Description := trimSpace description
            SKU := toUpperGo (trimSpace sku)
            Price := price
            Category := trimSpace category
            Brand := trimSpace brand
            Stock := stock
            Status := .active
            CreatedAt := now
            UpdatedAt := now } := by
  rw [NewProduct, validateProductName_eq_none name hname.1 hname.2,
      validateSKU_eq_none sku hsku.1 hsku.2,
      validatePrice_eq_none price hprice.1 hprice.2,
      validateStock_eq_none stock hstock, if_neg hcat]

/-- Witness for C1: the spec's iPhone scenario. -/
theorem NewProduct_valid_inputs_ok_witness :
    NewProduct "iPhone 15" "Latest Apple smartphone" "IPH15-128GB"
        "Electronics" "Apple" 999.99 100 0 =
      .ok { ID := 0
            Name := trimSpace "iPhone 15"
            Description := trimSpace "Latest Apple smartphone"
            SKU := toUpperGo (trimSpace "IPH15-128GB")
            Price := 999.99
            Category := trimSpace "Electronics"
            Brand := trimSpace "Apple"
            Stock := 100
            Status := .active
            CreatedAt := 0
            UpdatedAt := 0 } :=
  NewProduct_valid_inputs_ok "iPhone 15" "Latest Apple smartphone"
    "IPH15-128GB" "Electronics" "Apple" 999.99 100 0
    ⟨by decide, by decide⟩ (by decide) ⟨by decide, by decide⟩
    ⟨by norm_num, by norm_num⟩ (by decide) (by decide)

/-- The spec's deterministic validation order, written from the spec text:
the first violated constraint among name, then SKU, then price, then
stock, then category. -/
def firstViolation (name sku : String) (price : ℚ) (stock : Int)
    (category : String) : Option String :=
  match validateProductName name with
  | some e => some e
  | none =>
  match entities.validateSKU sku with
  | some e => some e
  | none =>
  match validatePrice price with
  | some e => some e
  | none =>
  match validateStock stock with
  | some e => some e
  | none =>
  if trimSpace category = "" then some "category is required" else none

/-- C2: `NewProduct` fails exactly when some constraint is violated, and
the error it fails with is the one for the first violated constraint in
the order name, SKU, price, stock, category; in the failure case no
Product value is produced. -/
theorem NewProduct_fails_with_first_violation
    (name description sku category brand : String) (price : ℚ) (stock : Int)
    (now : Nat) (e : String) :
    NewProduct name description sku category brand price stock now =
        .error e ↔
      firstViolation name sku price stock category = some e := by
  unfold NewProduct firstViolation
  cases validateProductName name
  case some e1 => simp
  case none =>
  cases entities.validateSKU sku
  case some e2 => simp
  case none =>
  cases validatePrice price
  case some e3 => simp
  case none =>
  cases validateStock stock
  case some e4 => simp
  case none =>
  by_cases hc : trimSpace category = ""
  · simp [hc]
  · simp [hc]

/-- A concrete entity used as the base point of several witnesses: the
repository's own test product. -/
def sampleProduct : Product :=
  { ID := 1
    Name := "iPhone 15"
    Description := "Latest Apple smartphone"
    SKU := "IPH15-128GB"
    Price := 999.99
    Category := "Electronics"
    Brand := "Apple"
    Stock := 100
    Status := .active
    CreatedAt := 0
    UpdatedAt := 0 }

/-- C3: a negative price passed to `UpdatePrice`, or a negative stock
passed to `UpdateStock`, makes the operation fail with an error while the
entire prior state of the entity — stock, price, status and updated-at
included — is returned unchanged. -/
theorem negative_inputs_leave_entity_unchanged (p : Product) (price : ℚ)
    (stock : Int) (now : Nat) :
    (price < 0 →
      p.UpdatePrice price now = (p, some "price cannot be negative")) ∧
    (stock < 0 →
      p.UpdateStock stock now = (p, some "stock quantity cannot be negative")) := by
  constructor
  · intro h
    unfold Product.UpdatePrice
    rw [if_pos h]
  · intro h
    unfold Product.UpdateStock
    rw [if_pos h]

/-- Witness for C3 at a concrete entity and concrete negative inputs. -/
theorem negative_inputs_leave_entity_unchanged_witness :
    sampleProduct.UpdatePrice (-50) 9 =
        (sampleProduct, some "price cannot be negative") ∧
    sampleProduct.UpdateStock (-5) 9 =
        (sampleProduct, some "stock quantity cannot be negative") :=
  ⟨(negative_inputs_leave_entity_unchanged sampleProduct (-50) (-5) 9).1
      (by norm_num),
   (negative_inputs_leave_entity_unchanged sampleProduct (-50) (-5) 9).2
      (by decide)⟩

/-- C4: `ReduceStock` fails with the invalid-quantity error when the
amount is not positive, fails with the insufficient-stock error when the
amount exceeds the current stock (leaving the entity unchanged), and
otherwise subtracts the amount from the stock and refreshes updated-at. -/
theorem ReduceStock_cases (p : Product) (q : Int) (now : Nat) :
    (q ≤ 0 →
      p.ReduceStock q now = (p, some "reduction quantity must be positive")) ∧
    (0 < q → p.Stock < q →
      p.ReduceStock q now = (p, some "insufficient stock")) ∧
    (0 < q → q ≤ p.Stock →
      p.ReduceStock q now =
        ({ p with Stock := p.Stock - q, UpdatedAt := now }, none)) := by
  refine ⟨fun h => ?_, fun h1 h2 => ?_, fun h1 h2 => ?_⟩
  · unfold Product.ReduceStock
    rw [if_pos h]
  · unfold Product.ReduceStock
    rw [if_neg (by omega), if_pos h2]
  · unfold Product.ReduceStock
    rw [if_neg (by omega), if_neg (by omega)]

/-- Witness for C4: the spec scenario `ReduceStock(10)` with stock 5 fails
with the insufficient-stock error and the stock stays 5. -/
theorem ReduceStock_cases_witness :
    ({ sampleProduct with Stock := 5 } : Product).ReduceStock 10 9 =
      ({ sampleProduct with Stock := 5 }, some "insufficient stock") :=
  (ReduceStock_cases { sampleProduct with Stock := 5 } 10 9).2.1
    (by decide) (by decide)

/-- C5: reducing the stock by `n` and then adding `n` back leaves the
stock at its original value, for every `n` not exceeding the initial
stock (when `n ≤ 0` both calls fail and change nothing; when `0 < n ≤
stock` both succeed and the subtraction is undone). -/
theorem reduce_then_add_restores_stock (p : Product) (n : Int)
    (t1 t2 : Nat) (h : n ≤ p.Stock) :
    (((p.ReduceStock n t1).1).AddStock n t2).1.Stock = p.Stock := by
  by_cases hn : n ≤ 0
  · simp [Product.ReduceStock, Product.AddStock, hn]
  · have h2 : ¬ p.Stock < n := not_lt.mpr h
    simp [Product.ReduceStock, Product.AddStock, hn, h2]

/-- Witness for C5 at a concrete entity and amount. -/
theorem reduce_then_add_restores_stock_witness :
    (((sampleProduct.ReduceStock 30 5).1).AddStock 30 6).1.Stock =
      sampleProduct.Stock :=
  reduce_then_add_restores_stock sampleProduct 30 5 6 (by decide)

/-! Helper lemmas about the price field. -/

theorem validatePrice_none_bounds (price : ℚ)
    (h : validatePrice price = none) :
    0 ≤ price ∧ price ≤ 999999.99 := by
  unfold validatePrice at h
  by_cases h1 : price < 0
  · rw [if_pos h1] at h
    simp at h
  · rw [if_neg h1] at h
    by_cases h2 : price > 999999.99
    · rw [if_pos h2] at h
      simp at h
    · exact ⟨not_lt.mp h1, not_lt.mp h2⟩

theorem NewProduct_ok_price (name description sku category brand : String)
    (price : ℚ) (stock : Int) (now : Nat) (q : Product)
    (h : NewProduct name description sku category brand price stock now =
      .ok q) :
    0 ≤ q.Price ∧ q.Price ≤ 999999.99 := by
  rw [NewProduct] at h
  split at h
  · simp at h
  split at h
  · simp at h
  split at h
  · simp at h
  split at h
  · simp at h
  split at h
  · simp at h
  · injection h with h2
    subst h2
    exact validatePrice_none_bounds price (by assumption)

theorem UpdateStock_price (p : Product) (quantity : Int) (now : Nat) :
    (p.UpdateStock quantity now).1.Price = p.Price := by
  unfold Product.UpdateStock
  split <;> rfl

theorem ReduceStock_price (p : Product) (quantity : Int) (now : Nat) :
    (p.ReduceStock quantity now).1.Price = p.Price := by
  unfold Product.ReduceStock
  split
  · rfl
  split <;> rfl

theorem AddStock_price (p : Product) (quantity : Int) (now : Nat) :
    (p.AddStock quantity now).1.Price = p.Price := by
  unfold Product.AddStock
  split <;> rfl

theorem UpdatePrice_price (p : Product) (newPrice : ℚ) (now : Nat) :
    (p.UpdatePrice newPrice now).1.Price =
      if newPrice < 0 then p.Price else newPrice := by
  unfold Product.UpdatePrice
  split <;> rfl

/-- The product that `NewProduct` builds for the repository's own iPhone
test inputs at time 0. -/
def factoryProduct : Product :=
  { sampleProduct with ID := 0 }

theorem factoryProduct_eval :
    NewProduct "iPhone 15" "Latest Apple smartphone" "IPH15-128GB"
      "Electronics" "Apple" 999.99 100 0 = .ok factoryProduct := by
  have h1 : validateProductName "iPhone 15" = none := by decide
  have h2 : entities.validateSKU "IPH15-128GB" = none := by decide
  have h3 : validatePrice 999.99 = none := by norm_num [validatePrice]
  have h4 : validateStock 100 = none := by decide
  rw [NewProduct, h1, h2, h3, h4]
  rfl

/-- Counterexample to C9: a product built by the validated factory can be
driven above the 999999.99 price bound by `UpdatePrice` alone, which
succeeds on any non-negative price. -/
theorem UpdatePrice_exceeds_upper_bound :
    NewProduct "iPhone 15" "Latest Apple smartphone" "IPH15-128GB"
        "Electronics" "Apple" 999.99 100 0 = .ok factoryProduct ∧
    (factoryProduct.UpdatePrice 1000000 1).2 = none ∧
    999999.99 < (factoryProduct.UpdatePrice 1000000 1).1.Price := by
  refine ⟨factoryProduct_eval, ?_, ?_⟩
  · unfold Product.UpdatePrice
    rw [if_neg (by norm_num)]
  · rw [UpdatePrice_price, if_neg (by norm_num)]
    norm_num

/-- C9 as amended: the lower bound `0 ≤ price` is established at
construction and preserved by every declared operation; the upper bound
`price ≤ 999999.99` is established at construction and preserved by every
declared operation except `UpdatePrice`, which does not re-enforce it. -/
theorem price_invariant_amended (p q : Product)
    (name description sku category brand : String) (price newPrice : ℚ)
    (stock quantity : Int) (now : Nat) :
    (NewProduct name description sku category brand price stock now =
        .ok q →
      0 ≤ q.Price ∧ q.Price ≤ 999999.99) ∧
    (0 ≤ p.Price →
      0 ≤ (p.UpdateStock quantity now).1.Price ∧
      0 ≤ (p.ReduceStock quantity now).1.Price ∧
      0 ≤ (p.AddStock quantity now).1.Price ∧
      0 ≤ (p.Activate now).Price ∧
      0 ≤ (p.Deactivate now).Price ∧
      0 ≤ (p.Discontinue now).Price ∧
      0 ≤ (p.UpdatePrice newPrice now).1.Price) ∧
    (p.Price ≤ 999999.99 →
      (p.UpdateStock quantity now).1.Price ≤ 999999.99 ∧
      (p.ReduceStock quantity now).1.Price ≤ 999999.99 ∧
      (p.AddStock quantity now).1.Price ≤ 999999.99 ∧
      (p.Activate now).Price ≤ 999999.99 ∧
      (p.Deactivate now).Price ≤ 999999.99 ∧
      (p.Discontinue now).Price ≤ 999999.99) := by
  refine ⟨fun h =>
    NewProduct_ok_price name description sku category brand price stock now
      q h, fun h0 => ?_, fun hb => ?_⟩
  · simp only [UpdateStock_price, ReduceStock_price, AddStock_price,
      UpdatePrice_price, Product.Activate, Product.Deactivate,
      Product.Discontinue]
    refine ⟨h0, h0, h0, h0, h0, h0, ?_⟩
    split
    · exact h0
    · next hy => exact not_lt.mp hy
  · simp only [UpdateStock_price, ReduceStock_price, AddStock_price,
      Product.Activate, Product.Deactivate, Product.Discontinue]
    exact ⟨hb, hb, hb, hb, hb, hb⟩

/-- Witness for the amended C9 at concrete entities. -/
theorem price_invariant_amended_witness :
    (0 ≤ factoryProduct.Price ∧ factoryProduct.Price ≤ 999999.99) ∧
    0 ≤ (sampleProduct.UpdatePrice 50 0).1.Price ∧
    (sampleProduct.Discontinue 0).Price ≤ 999999.99 :=
  have H := price_invariant_amended sampleProduct factoryProduct
    "iPhone 15" "Latest Apple smartphone" "IPH15-128GB" "Electronics"
    "Apple" 999.99 50 100 3 0
  ⟨H.1 factoryProduct_eval,
   (H.2.1 (by norm_num [sampleProduct])).2.2.2.2.2.2,
   (H.2.2 (by norm_num [sampleProduct])).2.2.2.2.2⟩

/-! Concrete ports and requests used by the use-case scenarios. -/

/-- A creation request whose SKU matches `sampleProduct`'s stored SKU. -/
def dupRequest : CreateProductRequestDTO :=
  { Name := "iPhone 15"
    Description := "d"
    SKU := "IPH15-128GB"
    Price := 999.99
    Category := "Electronics"
    Brand := "Apple"
    Stock := 100 }

/-- A port whose existence check itself fails. -/
def failPort : Port :=
  { existsBySKU := fun _ => .error ErrProductNotFound
    create := fun p => .ok p
    getByID := fun _ => .error ErrProductNotFound }

/-- C6: when the SKU (well-formed, as any stored SKU is) already exists
according to the port, `CreateProduct` fails with the already-exists
error; when the port's existence check itself fails, it surfaces the
existence-check failure; in both cases the only port call issued is the
existence check, so the port's create method is never invoked. -/
theorem CreateProduct_duplicate_and_check_failure
    (port : Port) (request : CreateProductRequestDTO) (now : Nat)
    (hsku : usecases.validateSKU request.SKU = none) :
    (port.existsBySKU request.SKU = .ok true →
      CreateProduct port request now =
        (.error (.domain ErrProductAlreadyExists),
          [.existsBySKU request.SKU])) ∧
    (∀ e, port.existsBySKU request.SKU = .error e →
      CreateProduct port request now =
        (.error (.domain ErrFailedToCheckProductExistance),
          [.existsBySKU request.SKU])) := by
  constructor
  · intro h
    rw [CreateProduct, hsku, h]
  · intro e h
    rw [CreateProduct, hsku, h]

/-- Witness for C6: a duplicate SKU and a failing existence check, both
at concrete stores. -/
theorem CreateProduct_duplicate_and_check_failure_witness :
    CreateProduct (inMemoryPort [sampleProduct]) dupRequest 0 =
      (.error (.domain ErrProductAlreadyExists),
        [.existsBySKU dupRequest.SKU]) ∧
    CreateProduct failPort dupRequest 0 =
      (.error (.domain ErrFailedToCheckProductExistance),
        [.existsBySKU dupRequest.SKU]) :=
  ⟨(CreateProduct_duplicate_and_check_failure (inMemoryPort [sampleProduct])
      dupRequest 0 (by decide)).1 rfl,
   (CreateProduct_duplicate_and_check_failure failPort dupRequest 0
      (by decide)).2 ErrProductNotFound rfl⟩

/-- A stored product whose SKU is already in canonical (trimmed,
upper-cased) form, as every factory-built product's SKU is. -/
def storedProduct : Product :=
  { ID := 1
    Name := "Stored Product"
    Description := ""
    SKU := "ABC-123"
    Price := 100
    Category := "Electronics"
    Brand := ""
    Stock := 10
    Status := .active
    CreatedAt := 0
    UpdatedAt := 0 }

/-- A creation request whose SKU differs from `storedProduct`'s only in
letter case. -/
def caseRequest : CreateProductRequestDTO :=
  { Name := "Another Product"
    Description := "d"
    SKU := "abc-123"
    Price := 100
    Category := "Electronics"
    Brand := "B"
    Stock := 5 }

/-- The entity the factory builds from `caseRequest` at time 0. -/
def createdEntity : Product :=
  { ID := 0
    Name := "Another Product"
    Description := "d"
    SKU := "ABC-123"
    Price := 100
    Category := "Electronics"
    Brand := "B"
    Stock := 5
    Status := .active
    CreatedAt := 0
    UpdatedAt := 0 }

theorem caseRequest_toEntity : ToEntity caseRequest 0 = .ok createdEntity := by
  have h1 : validateProductName caseRequest.Name = none := by decide
  have h2 : entities.validateSKU caseRequest.SKU = none := by decide
  have h3 : validatePrice caseRequest.Price = none := by
    norm_num [validatePrice, caseRequest]
  have h4 : validateStock caseRequest.Stock = none := by decide
  rw [ToEntity, NewProduct, h1, h2, h3, h4]
  rfl

/-- C10: the duplicate pre-check queries the port with exactly the raw
request SKU, while the entity subsequently built and persisted carries the
trimmed, upper-cased SKU; concretely, a request differing from a stored
product's SKU only in letter case passes the pre-check and creation
proceeds to the port with the colliding canonical SKU. -/
theorem CreateProduct_uses_raw_sku :
    (∀ (port : Port) (request : CreateProductRequestDTO) (now : Nat),
      usecases.validateSKU request.SKU = none →
      (CreateProduct port request now).2.head? =
        some (.existsBySKU request.SKU)) ∧
    (CreateProduct (inMemoryPort [storedProduct]) caseRequest 0 =
      (.ok (ProductToResponseDTO createdEntity),
        [.existsBySKU "abc-123", .create createdEntity]) ∧
     createdEntity.SKU = storedProduct.SKU) := by
  refine ⟨fun port request now h => ?_, ?_, rfl⟩
  · rw [CreateProduct, h]
    show (match port.existsBySKU request.SKU with
      | .error _ => (Except.error (UCError.domain ErrFailedToCheckProductExistance),
          [PortCall.existsBySKU request.SKU])
      | .ok true => (Except.error (UCError.domain ErrProductAlreadyExists),
          [PortCall.existsBySKU request.SKU])
      | .ok false =>
        match ToEntity request now with
        | .error msg => (Except.error (UCError.entity msg),
            [PortCall.existsBySKU request.SKU])
        | .ok domainEntity =>
          match port.create domainEntity with
          | .error e =>
            if e = ErrFailedToCheckProductExistance then
              (Except.error (UCError.domain ErrFailedToCheckProductExistance),
                [PortCall.existsBySKU request.SKU, PortCall.create domainEntity])
            else
              (Except.error (UCError.domain ErrFailedToCreateProduct),
                [PortCall.existsBySKU request.SKU, PortCall.create domainEntity])
          | .ok createdProduct =>
            (Except.ok (ProductToResponseDTO createdProduct),
              [PortCall.existsBySKU request.SKU, PortCall.create domainEntity])
      ).2.head? = some (PortCall.existsBySKU request.SKU)
    cases port.existsBySKU request.SKU
    case error e => rfl
    case ok b =>
      cases b
      case true => rfl
      case false =>
        show (match ToEntity request now with
          | .error msg => (Except.error (UCError.entity msg),
              [PortCall.existsBySKU request.SKU])
          | .ok domainEntity =>
            match port.create domainEntity with
            | .error e =>
              if e = ErrFailedToCheckProductExistance then
                (Except.error (UCError.domain ErrFailedToCheckProductExistance),
                  [PortCall.existsBySKU request.SKU, PortCall.create domainEntity])
              else
                (Except.error (UCError.domain ErrFailedToCreateProduct),
                  [PortCall.existsBySKU request.SKU, PortCall.create domainEntity])
            | .ok createdProduct =>
              (Except.ok (ProductToResponseDTO createdProduct),
                [PortCall.existsBySKU request.SKU, PortCall.create domainEntity])
          ).2.head? = some (PortCall.existsBySKU request.SKU)
        cases ToEntity request now
        case error msg => rfl
        case ok ent =>
          show (match port.create ent with
            | .error e =>
              if e = ErrFailedToCheckProductExistance then
                (Except.error (UCError.domain ErrFailedToCheckProductExistance),
                  [PortCall.existsBySKU request.SKU, PortCall.create ent])
              else
                (Except.error (UCError.domain ErrFailedToCreateProduct),
                  [PortCall.existsBySKU request.SKU, PortCall.create ent])
            | .ok createdProduct =>
              (Except.ok (ProductToResponseDTO createdProduct),
                [PortCall.existsBySKU request.SKU, PortCall.create ent])
            ).2.head? = some (PortCall.existsBySKU request.SKU)
          cases port.create ent
          case error e =>
            show (if e = ErrFailedToCheckProductExistance then
                (Except.error (UCError.domain ErrFailedToCheckProductExistance),
                  [PortCall.existsBySKU request.SKU, PortCall.create ent])
              else
                (Except.error (UCError.domain ErrFailedToCreateProduct),
                  [PortCall.existsBySKU request.SKU, PortCall.create ent])
              ).2.head? = some (PortCall.existsBySKU request.SKU)
            split <;> rfl
          case ok cp => rfl
  · rw [CreateProduct, caseRequest_toEntity]
    rfl

/-- Witness for C10 at a concrete port and request. -/
theorem CreateProduct_uses_raw_sku_witness :
    (CreateProduct (inMemoryPort [storedProduct]) caseRequest 0).2.head? =
      some (.existsBySKU caseRequest.SKU) :=
  CreateProduct_uses_raw_sku.1 (inMemoryPort [storedProduct]) caseRequest 0
    (by decide)

/-- A partial update touching the name and the stock. -/
def renameRequest : UpdateProductRequestDTO :=
  { Name := "iPhone 15 Pro", Stock := some 150 }

/-- C7 at the code's actual behavior: `UpdateProduct` on an existing
product returns success carrying the mutated projection, yet the only
port call it ever issues is the initial read — no port operation persists
the update, so the port cannot hold the updated state. -/
theorem UpdateProduct_success_without_persist :
    (UpdateProduct (inMemoryPort [sampleProduct]) 1 renameRequest 9).1 =
      .ok (ProductToResponseDTO
        { sampleProduct with
          Name := "iPhone 15 Pro"
          Stock := 150
          UpdatedAt := 9 }) ∧
    (UpdateProduct (inMemoryPort [sampleProduct]) 1 renameRequest 9).2 =
      [.getByID 1] :=
  ⟨rfl, rfl⟩

/-- Counterexample to C8's delegation half: with a product held by the
port, `ListProducts` still reports total 0 and an empty page and issues
no port call at all. -/
theorem ListProducts_does_not_delegate :
    (ListProducts (inMemoryPort [sampleProduct]) 0 10).1.Total = 0 ∧
    (ListProducts (inMemoryPort [sampleProduct]) 0 10).1.Products = [] ∧
    (ListProducts (inMemoryPort [sampleProduct]) 0 10).2 = [] :=
  ⟨rfl, rfl, rfl⟩

/-- C8 as amended: `ListProducts` normalizes the page to ≥ 0 (default 0)
and the page size to [1,100] (default 10) and never propagates anything
to the port — it issues no port call and always returns an empty page
with total 0. -/
theorem ListProducts_normalizes (port : Port) (page pageSize : Int) :
    (ListProducts port page pageSize).1.Page =
      (if page < 0 then 0 else page) ∧
    (ListProducts port page pageSize).1.PageSize =
      (if pageSize < 1 || pageSize > 100 then 10 else pageSize) ∧
    (ListProducts port page pageSize).1.Products = [] ∧
    (ListProducts port page pageSize).1.Total = 0 ∧
    (ListProducts port page pageSize).2 = [] :=
  ⟨rfl, rfl, rfl, rfl, rfl⟩
